import Mathlib

/-!
Verification development for the InboxSDK core: a shallow embedding of the
XHR interception proxy (src/src/injected-js/xhr-proxy-factory.ts), the
InboxDriver pool wiring and last-interacted-card slot (the inbox driver
source file), and the waitFor polling primitive
(src/src/platform-implementation-js/lib/wait-for.js), together with theorems
settling the specification claims about them.

Modelling conventions:
- JS exceptions and promise rejections are modelled with `Except JsError`.
- The single-threaded, microtask-driven execution is collapsed into explicit
  state-passing: every proxy operation is a total function on `ProxyState`.
  A promise chain that runs between the client's calls is represented by an
  explicit resolution step (`XHRProxy.resolveDeferredSend`); an `await` chain
  that runs to completion without interleaving is run sequentially.
- The native XMLHttpRequest is the browser environment, not repository code.
  It is modelled as the `RealXHR` record, with `open`/`send`/`abort`
  transitions following the WHATWG XMLHttpRequest specification (abort on a
  sent, unfinished request runs the request error steps: readyState becomes
  4, a readystatechange event is dispatched, then the state is reset to 0).
  The repository's own comment in `XHRProxy.prototype.abort` relies on
  exactly this behaviour.
- Every invocation of a client-supplied wrapper callback is recorded in the
  `calls` trace so that non-invocation and invocation order are provable.
-/

abbrev JsError := String

/-- A (method, url, body) request tuple as threaded through requestChangers. -/
structure Request where
  method : String
  url : String
  body : String
deriving DecidableEq, Repr

/-- What a requestChanger may actually return: a JS object on which the
`has(., 'method') / has(., 'url') / has(., 'body')` checks are performed.
A missing field is `none`. -/
structure MaybeRequest where
  method? : Option String
  url? : Option String
  body? : Option String
deriving DecidableEq, Repr

/-- The mutable connection record created at `open()` time
(XHRProxyConnectionDetails in the source). `originalResponseText` is
installed via `Object.defineProperty` with `writable: false,
configurable: false`; the flag `originalResponseTextFrozen` records that. -/
structure Connection where
  method : String
  url : String
  params : List (String × String)
  headers : List (String × String)
  async : Bool
  responseType : String := ""
  originalSendBody : Option String := none
  status : Nat := 0
  originalResponseText : Option String := none
  originalResponseTextFrozen : Bool := false
  modifiedResponseText : Option String := none

/-- `url.split('?')[1] || ''` from `XHRProxy.prototype.open`. -/
def queryOf (url : String) : String :=
  match url.splitOn "?" with
  | _ :: q :: _ => q
  | _ => ""

/-- Simplified model of `querystring.parse` (an external node library):
split on `&` and `=`. None of the verified claims inspect `params`. -/
def deparam (s : String) : List (String × String) :=
  (s.splitOn "&").filterMap fun kv =>
    match kv.splitOn "=" with
    | [] => none
    | [k] => some (k, "")
    | k :: v :: _ => some (k, v)

/-- `Object.defineProperty(connection, 'originalResponseText', {writable:
false, configurable: false, value})`: the first definition installs the value
and freezes it; once frozen, the property can no longer be written or
reconfigured, so later attempts leave it unchanged. -/
def Connection.defineOriginalResponseText (c : Connection) (v : String) : Connection :=
  if c.originalResponseTextFrozen then c
  else { c with originalResponseText := some v, originalResponseTextFrozen := true }

/-- A wrapper chain entry: one required relevance predicate plus optional
callbacks, exactly the optional fields of the source's `Wrapper` type that
the claims concern. Each callback may throw (`Except.error`). -/
structure Wrapper where
  isRelevantTo : Connection → Except JsError Bool
  originalSendBodyLogger : Option (Connection → String → Except JsError Unit) := none
  requestChanger : Option (Connection → Request → Except JsError MaybeRequest) := none
  originalResponseTextLogger : Option (Connection → String → Except JsError Unit) := none
  responseTextChanger : Option (Connection → String → Except JsError String) := none
  finalResponseTextLogger : Option (Connection → String → Except JsError Unit) := none
  afterListeners : Option (Connection → Except JsError Unit) := none

/-- Trace entry recording that a particular wrapper callback was invoked,
with the wrapper's registration index and the argument it received. -/
inductive CallRec where
  | originalSendBodyLogger (wrapperIdx : Nat) (body : String)
  | requestChanger (wrapperIdx : Nat) (request : Request)
  | originalResponseTextLogger (wrapperIdx : Nat) (text : String)
  | responseTextChanger (wrapperIdx : Nat) (text : String)
  | finalResponseTextLogger (wrapperIdx : Nat) (text : String)
  | afterListeners (wrapperIdx : Nat)
deriving DecidableEq, Repr

/-- Arguments of the last real `open()` call on the underlying XHR. -/
structure RealOpenArgs where
  method : String
  url : String
  async : Bool
deriving DecidableEq, Repr

/-- The native XMLHttpRequest object (browser environment). `sent = some b`
means the real `send(b)` has been performed (`some none` = sent with no
body, as in the abort flush path). -/
structure RealXHR where
  readyState : Nat := 0
  responseType : String := ""
  responseText : String := ""
  response : String := ""
  status : Nat := 0
  opened : Option RealOpenArgs := none
  sent : Option (Option String) := none
  aborted : Bool := false

/-- `!this._realxhr.responseType || this._realxhr.responseType == 'text'`. -/
def RealXHR.supportsText (rx : RealXHR) : Bool :=
  rx.responseType == "" || rx.responseType == "text"

def RealXHR.openReal (rx : RealXHR) (method url : String) (async : Bool) : RealXHR :=
  { rx with readyState := 1, opened := some ⟨method, url, async⟩,
            sent := none, aborted := false }

def RealXHR.sendReal (rx : RealXHR) (body : Option String) : RealXHR :=
  { rx with sent := some body }

/-- The full state of one XHRProxy object together with its observable
history: the `logError` sink (`log`), the user-visible events delivered by
`triggerEventListeners` (`events`, by event name, in delivery order), and
the wrapper-callback invocation trace (`calls`). Wrappers are paired with
their registration index. -/
structure ProxyState where
  wrappers : List (Nat × Wrapper)
  activeWrappers : List (Nat × Wrapper) := []
  responseTextChangers : List (Nat × (Connection → String → Except JsError String)) := []
  requestChangers : List (Nat × (Connection → Request → Except JsError MaybeRequest)) := []
  connection : Option Connection := none
  connId : Nat := 0
  pendingSend : Option (Nat × Request) := none
  clientStartedSend : Bool := false
  realStartedSend : Bool := false
  openState : Bool := false
  readyState : Nat := 0
  responseText : String := ""
  realxhr : RealXHR := {}
  log : List JsError := []
  events : List String := []
  calls : List CallRec := []

/-- `new XHRProxy()`: fresh proxy over the given (ordered) wrapper list. -/
def XHRProxy.new (ws : List Wrapper) : ProxyState :=
  { wrappers := ws.enum }

/-- `findApplicableWrappers`: the wrappers whose `isRelevantTo` returns true.
A predicate that throws makes `filter`'s callback return `undefined`
(falsy), so the wrapper is not selected. -/
def findApplicableWrappers (ws : List (Nat × Wrapper)) (conn : Connection) :
    List (Nat × Wrapper) :=
  ws.filter fun iw =>
    match iw.2.isRelevantTo conn with
    | .ok true => true
    | _ => false

/-- The errors thrown by `isRelevantTo` predicates during
`findApplicableWrappers`, in wrapper order; each is passed to `logError`. -/
def relevancePredicateErrors (ws : List (Nat × Wrapper)) (conn : Connection) :
    List JsError :=
  ws.filterMap fun iw =>
    match iw.2.isRelevantTo conn with
    | .error e => some e
    | _ => none

/-- Invocation trace of running one optional logger callback on every active
wrapper (the `each(this._activeWrappers, ...)` pattern): a wrapper having
the callback contributes one call record. -/
def loggerCalls (active : List (Nat × Wrapper))
    (sel : Wrapper → Option (Connection → String → Except JsError Unit))
    (tag : Nat → String → CallRec) (arg : String) : List CallRec :=
  active.filterMap fun iw => (sel iw.2).map fun _ => tag iw.1 arg

/-- Errors thrown by those logger callbacks; each is caught by the
surrounding try/catch and passed to `logError`. -/
def loggerErrors (active : List (Nat × Wrapper))
    (sel : Wrapper → Option (Connection → String → Except JsError Unit))
    (conn : Connection) (arg : String) : List JsError :=
  active.filterMap fun iw =>
    match sel iw.2 with
    | none => none
    | some g =>
      match g conn arg with
      | .ok _ => none
      | .error e => some e

/-- Invocation trace of the `afterListeners` callbacks. -/
def afterListenerCalls (active : List (Nat × Wrapper)) : List CallRec :=
  active.filterMap fun iw => (iw.2.afterListeners).map fun _ => CallRec.afterListeners iw.1

/-- Errors thrown by `afterListeners` callbacks (caught, passed to logError). -/
def afterListenerErrors (active : List (Nat × Wrapper)) (conn : Connection) :
    List JsError :=
  active.filterMap fun iw =>
    match iw.2.afterListeners with
    | none => none
    | some g =>
      match g conn with
      | .ok _ => none
      | .error e => some e

/-- Modelled from the spec: the `assert` helper (src/common/assert) is not
under src/; per the spec a malformed requestChanger result is a hard
assertion failure surfaced to the logging sink, so a failed assertion is an
exception tagged with its message. -/
def assertionError (msg : String) : JsError := "AssertionError: " ++ msg

/-- The `for (const requestChanger of this._requestChangers)` loop inside
`XHRProxy.prototype.send`: thread the request tuple through the changers in
order, assert that each result has method/url/body, and stop after the
first changer when `startConnection !== this._connection ||
this._realStartedSend` already holds when the chain runs (`stopEarly`).
The first thrown error or failed assertion rejects the whole chain. -/
def runRequestChangerLoop (conn : Connection)
    (changers : List (Nat × (Connection → Request → Except JsError MaybeRequest)))
    (request : Request) (stopEarly : Bool) :
    List CallRec × Except JsError Request :=
  match changers with
  | [] => ([], .ok request)
  | (i, f) :: rest =>
    let call := CallRec.requestChanger i request
    match f conn request with
    | .error e => ([call], .error e)
    | .ok m =>
      if m.method?.isSome then
        if m.url?.isSome then
          if m.body?.isSome then
            let r2 : Request :=
              { method := m.method?.getD "", url := m.url?.getD "",
                body := m.body?.getD "" }
            if stopEarly then ([call], .ok r2)
            else
              let (cc, res) := runRequestChangerLoop conn rest r2 stopEarly
              (call :: cc, res)
          else ([call], .error (assertionError "modifiedRequest has body"))
        else ([call], .error (assertionError "modifiedRequest has url"))
      else ([call], .error (assertionError "modifiedRequest has method"))

/-- The `for (const responseTextChanger of this._responseTextChangers)` loop
in the readystatechange handler: thread the response text through the
changers in order, updating `connection.modifiedResponseText` after each
step; the first thrown error rejects the chain. -/
def runResponseChangerLoop
    (changers : List (Nat × (Connection → String → Except JsError String)))
    (conn : Connection) (text : String) :
    List CallRec × Connection × Except JsError String :=
  match changers with
  | [] => ([], conn, .ok text)
  | (i, f) :: rest =>
    let call := CallRec.responseTextChanger i text
    match f conn text with
    | .error e => ([call], conn, .error e)
    | .ok t2 =>
      let conn2 := { conn with modifiedResponseText := some t2 }
      let (cc, conn3, res) := runResponseChangerLoop rest conn2 t2
      (call :: cc, conn3, res)

/-- `deliverFinalRsc`: set readyState 4, run the finalResponseTextLoggers
(text mode only), deliver the synthesized readystatechange, load/error and
loadend events, then run the afterListeners callbacks. `wasSuccess` is
`this.status == 200` (the proxy's `status` getter passes through to the
real XHR). -/
def deliverFinalRsc (s : ProxyState) : ProxyState :=
  let s2 := { s with readyState := 4 }
  match s2.connection with
  | none => s2
  | some conn =>
    let str := s2.realxhr.supportsText
    let fc := if str then
        loggerCalls s2.activeWrappers (fun w => w.finalResponseTextLogger)
          CallRec.finalResponseTextLogger s2.responseText
      else []
    let fe := if str then
        loggerErrors s2.activeWrappers (fun w => w.finalResponseTextLogger)
          conn s2.responseText
      else []
    { s2 with
      calls := s2.calls ++ fc ++ afterListenerCalls s2.activeWrappers,
      log := s2.log ++ fe ++ afterListenerErrors s2.activeWrappers conn,
      events := s2.events ++
        ["readystatechange", if s2.realxhr.status == 200 then "load" else "error",
         "loadend"] }

/-- The `readystatechange` listener the proxy installs on the real XHR,
run when the real XHR's readyState has changed. The asynchronous
response-text-changer chain (readyState 4, text mode, async connection) is
run to completion here; its final `.then` sets `responseText` and calls the
once-guarded `finish` (`deliverFinalRsc`), and on rejection logs the error
and falls back to the real XHR's responseText. -/
def XHRProxy.handleRealRsc (s : ProxyState) : ProxyState :=
  match s.connection with
  | none => s
  | some conn0 =>
    let conn := if 2 ≤ s.realxhr.readyState then { conn0 with status := s.realxhr.status }
                else conn0
    let s := { s with connection := some conn }
    let str := s.realxhr.supportsText
    if s.realxhr.readyState = 4 then
      if str then
        let conn1 := conn.defineOriginalResponseText s.realxhr.responseText
        let origText := conn1.originalResponseText.getD ""
        let oc := loggerCalls s.activeWrappers (fun w => w.originalResponseTextLogger)
          CallRec.originalResponseTextLogger origText
        let oe := loggerErrors s.activeWrappers (fun w => w.originalResponseTextLogger)
          conn1 origText
        let s := { s with connection := some conn1,
                          calls := s.calls ++ oc, log := s.log ++ oe }
        if conn1.async then
          let conn2 := { conn1 with modifiedResponseText := conn1.originalResponseText }
          let (cc, conn3, res) := runResponseChangerLoop s.responseTextChangers conn2 origText
          match res with
          | .ok finalText =>
            deliverFinalRsc { s with connection := some conn3,
                                     calls := s.calls ++ cc,
                                     responseText := finalText }
          | .error e =>
            deliverFinalRsc { s with connection := some conn3,
                                     calls := s.calls ++ cc,
                                     log := s.log ++ [e],
                                     responseText := s.realxhr.responseText }
        else
          deliverFinalRsc { s with responseText := s.realxhr.responseText }
      else
        deliverFinalRsc { s with responseText := "" }
    else
      if s.realxhr.readyState = 1 ∧ s.readyState = 1 then
        -- Delayed open+send just happened; an event was already delivered.
        s
      else
        let rt := if 3 ≤ s.realxhr.readyState then
            if str then
              if s.responseTextChangers.isEmpty then s.realxhr.responseText else ""
            else ""
          else ""
        { s with responseText := rt, readyState := s.realxhr.readyState,
                 events := s.events ++ ["readystatechange"] }

/-- `self._realxhr.open(...)` plus the readystatechange the real object
fires for it (processed by the proxy's listener). -/
def XHRProxy.finishOpen (s : ProxyState) (method url : String) (async : Bool) :
    ProxyState :=
  XHRProxy.handleRealRsc { s with realxhr := s.realxhr.openReal method url async }

/-- `XHRProxy.prototype.open` (named `openProxy` because `open` is a Lean
keyword): create the connection record, select the applicable wrappers and
their changers, and either pass the real open straight through or — when an
async connection has at least one requestChanger — defer it, exposing a
fake OPENED readystatechange instead. -/
def XHRProxy.openProxy (s : ProxyState) (method url : String) (async : Bool) :
    ProxyState :=
  let conn : Connection :=
    { method, url, params := deparam (queryOf url), headers := [], async }
  let active := findApplicableWrappers s.wrappers conn
  let rtcs := active.filterMap fun iw => (iw.2.responseTextChanger).map fun f => (iw.1, f)
  let s := { s with
    connection := some conn, connId := s.connId + 1,
    clientStartedSend := false, realStartedSend := false,
    activeWrappers := active, responseTextChangers := rtcs,
    responseText := "", openState := true,
    log := s.log ++ relevancePredicateErrors s.wrappers conn }
  if conn.async then
    let rqcs := active.filterMap fun iw => (iw.2.requestChanger).map fun f => (iw.1, f)
    let s := { s with requestChangers := rqcs }
    if rqcs.isEmpty then
      XHRProxy.finishOpen s method url conn.async
    else
      if s.readyState = 1 then s
      else { s with readyState := 1, events := s.events ++ ["readystatechange"] }
  else
    XHRProxy.finishOpen s method url conn.async

/-- `self._realxhr.send(body)` with the `_realStartedSend` flag. -/
def XHRProxy.finishSend (s : ProxyState) (body : Option String) : ProxyState :=
  { s with realStartedSend := true, realxhr := s.realxhr.sendReal body }

/-- `XHRProxy.prototype.send`: record the original body, run the
originalSendBodyLoggers, then either send straight through or — when an
async connection has requestChangers — leave the (method, url, body) tuple
pending for the asynchronous changer chain. -/
def XHRProxy.send (s : ProxyState) (body : String) : ProxyState :=
  match s.connection with
  | none => s
  | some conn0 =>
    let conn := { conn0 with
      originalSendBody := some body,
      responseType := if s.realxhr.responseType == "" then "text"
                      else s.realxhr.responseType }
    let s := { s with
      connection := some conn, clientStartedSend := true,
      openState := false,
      calls := s.calls ++ loggerCalls s.activeWrappers
        (fun w => w.originalSendBodyLogger) CallRec.originalSendBodyLogger body,
      log := s.log ++ loggerErrors s.activeWrappers
        (fun w => w.originalSendBodyLogger) conn body }
    if conn.async && !s.requestChangers.isEmpty then
      { s with pendingSend := some (s.connId, ⟨conn.method, conn.url, body⟩) }
    else
      XHRProxy.finishSend s (some body)

/-- The promise chain started by a deferred `send` resolving: run the
requestChanger chain on the pending tuple (on rejection, log the error and
fall back to the original request), then — if this is still the same
connection and no real send was forced meanwhile — really open and send
with the resulting tuple. The real open here passes no async flag (JS
default true). -/
def XHRProxy.resolveDeferredSend (s : ProxyState) : ProxyState :=
  match s.pendingSend with
  | none => s
  | some (cid, request) =>
    let s := { s with pendingSend := none }
    match s.connection with
    | none => s
    | some conn =>
      let stopEarly := !(cid == s.connId) || s.realStartedSend
      let (cc, res) := runRequestChangerLoop conn s.requestChangers request stopEarly
      let s := { s with calls := s.calls ++ cc }
      let (s, modifiedRequest) :=
        match res with
        | .ok r => (s, r)
        | .error e => ({ s with log := s.log ++ [e] }, request)
      if cid = s.connId ∧ s.realStartedSend = false then
        let s := XHRProxy.handleRealRsc
          { s with realxhr := s.realxhr.openReal modifiedRequest.method modifiedRequest.url true }
        XHRProxy.finishSend s (some modifiedRequest.body)
      else s

/-- The native XHR's part of `abort()` (browser environment, WHATWG
XMLHttpRequest): on a sent but unfinished request, run the request error
steps — readyState 4, network-error response, a readystatechange dispatch
(processed by the proxy's listener), an abort progress event (which reaches
client listeners directly, since only readystatechange/load/error/loadend
are intercepted) — then reset the state to UNSENT. The source's own comment
in `XHRProxy.prototype.abort` documents this readyState-4 transition. -/
def XHRProxy.realAbort (s : ProxyState) : ProxyState :=
  if s.realxhr.sent.isSome ∧ 1 ≤ s.realxhr.readyState ∧ s.realxhr.readyState ≤ 3 then
    let s := { s with
      realxhr := { s.realxhr with
                   readyState := 4, status := 0,
                   responseText := "", response := "", aborted := true },
      events := s.events ++ ["abort"] }
    let s := XHRProxy.handleRealRsc s
    { s with realxhr := { s.realxhr with readyState := 0 } }
  else
    { s with realxhr := { s.realxhr with aborted := true } }

/-- `XHRProxy.prototype.abort`: if the client already called send but the
real send has not started, force the real open (if needed, with the
connection's original method/url) and the real send first, then abort the
real request. -/
def XHRProxy.abort (s : ProxyState) : ProxyState :=
  let s :=
    if s.clientStartedSend && !s.realStartedSend then
      match s.connection with
      | none => s
      | some conn =>
        let s :=
          if s.readyState ≠ 0 ∧ s.realxhr.readyState = 0 then
            XHRProxy.handleRealRsc
              { s with realxhr := s.realxhr.openReal conn.method conn.url true }
          else s
        XHRProxy.finishSend s none
    else s
  XHRProxy.realAbort s

/-- The proxy's `response` getter: in text mode it returns the (possibly
transformed) `responseText`; otherwise the real XHR's response untouched. -/
def XHRProxy.response (s : ProxyState) : String :=
  if s.realxhr.supportsText then s.responseText else s.realxhr.response

/-- Environment step: the client assigns `proxy.responseType` (a
pass-through property writing to the real XHR). -/
def setResponseType (s : ProxyState) (rt : String) : ProxyState :=
  { s with realxhr := { s.realxhr with responseType := rt } }

/-- Environment step: the server completes the request — the real XHR moves
to readyState 4 with the given status and body (responseText only readable
in text mode) and fires readystatechange, which the proxy's listener
processes. -/
def serverRespond (s : ProxyState) (status : Nat) (text raw : String) : ProxyState :=
  let rx := { s.realxhr with
              readyState := 4, status := status,
              responseText := if s.realxhr.supportsText then text else "",
              response := raw }
  XHRProxy.handleRealRsc { s with realxhr := rx }

/-!
InboxDriver model (C3, C9). Kefir observables are external library code;
an observable is modelled denotationally as its timed event history, a list
of (time, value) pairs, and `takeUntilBy` keeps the events strictly before
the first emission of the other observable. The Driver's stopper
(kefir-stopper) emits at most once; its history is `Option Nat` (the time
`destroy()` fired it, if ever).
-/

/-- A timed event history of a Kefir observable (values are item ids). -/
abbrev TStream := List (Nat × Nat)

/-- Kefir `takeUntilBy`: pass events through until the other observable
(here: the stopper, firing at `stopAt`) emits. -/
def takeUntilBy (src : TStream) (stopAt : Option Nat) : TStream :=
  match stopAt with
  | none => src
  | some t0 => src.filter fun e => decide (e.1 < t0)

/-- Modelled from the spec: `ItemWithLifetimePool`
(src/platform-implementation-js/lib/ItemWithLifetimePool) is not under
src/. Per spec section 4.2, `items()` produces the pool's lazy sequence of
arrivals, i.e. exactly the events of the stream the pool was constructed
over. -/
structure ItemWithLifetimePool where
  input : TStream
deriving DecidableEq, Repr

/-- Modelled from the spec: the pool's `items()` arrival feed. -/
def ItemWithLifetimePool.items (p : ItemWithLifetimePool) : TStream := p.input

/-- The raw detector streams the InboxDriver constructor wires up (thread
row / thread / message elements, the view streams derived from them,
chat sidebar, app toolbar location, search bar and native drawer). The
`.map(el => ...)` steps after `takeUntilBy` in the source preserve event
times, so values are kept as opaque ids. -/
structure InboxDriverInputs where
  threadRowEls : TStream
  threadEls : TStream
  messageEls : TStream
  threadViews : TStream
  messageViews : TStream
  attachmentCardViews : TStream
  attachmentOverlayViews : TStream
  composeViews : TStream
  chatSidebarViews : TStream
  appToolbarLocations : TStream
  searchBars : TStream
  nativeDrawers : TStream

/-- The pools the InboxDriver constructor builds: each one is constructed
over its detector stream wired with `takeUntilBy(this._stopper)`. -/
structure InboxDriverModel where
  stopperFiredAt : Option Nat
  threadRowElPool : ItemWithLifetimePool
  threadElPool : ItemWithLifetimePool
  messageElPool : ItemWithLifetimePool
  threadViewDriverPool : ItemWithLifetimePool
  messageViewDriverPool : ItemWithLifetimePool
  attachmentCardViewDriverPool : ItemWithLifetimePool
  attachmentOverlayViewDriverPool : ItemWithLifetimePool
  composeViewDriverPool : ItemWithLifetimePool
  chatSidebarViewPool : ItemWithLifetimePool
  appToolbarLocationPool : ItemWithLifetimePool
  searchBarPool : ItemWithLifetimePool
  nativeDrawerPool : ItemWithLifetimePool

/-- The InboxDriver constructor wiring: every pool's input stream is
`<detector stream>.takeUntilBy(this._stopper)`. Denotationally the driver
is built over the full timed histories, with `stopAt` the stopper's
emission time. -/
def InboxDriver.build (inp : InboxDriverInputs) (stopAt : Option Nat) :
    InboxDriverModel :=
  { stopperFiredAt := stopAt,
    threadRowElPool := ⟨takeUntilBy inp.threadRowEls stopAt⟩,
    threadElPool := ⟨takeUntilBy inp.threadEls stopAt⟩,
    messageElPool := ⟨takeUntilBy inp.messageEls stopAt⟩,
    threadViewDriverPool := ⟨takeUntilBy inp.threadViews stopAt⟩,
    messageViewDriverPool := ⟨takeUntilBy inp.messageViews stopAt⟩,
    attachmentCardViewDriverPool := ⟨takeUntilBy inp.attachmentCardViews stopAt⟩,
    attachmentOverlayViewDriverPool := ⟨takeUntilBy inp.attachmentOverlayViews stopAt⟩,
    composeViewDriverPool := ⟨takeUntilBy inp.composeViews stopAt⟩,
    chatSidebarViewPool := ⟨takeUntilBy inp.chatSidebarViews stopAt⟩,
    appToolbarLocationPool := ⟨takeUntilBy inp.appToolbarLocations stopAt⟩,
    searchBarPool := ⟨takeUntilBy inp.searchBars stopAt⟩,
    nativeDrawerPool := ⟨takeUntilBy inp.nativeDrawers stopAt⟩ }

/-- Every pool the InboxDriver constructed. -/
def InboxDriverModel.pools (d : InboxDriverModel) : List ItemWithLifetimePool :=
  [d.threadRowElPool, d.threadElPool, d.messageElPool,
   d.threadViewDriverPool, d.messageViewDriverPool,
   d.attachmentCardViewDriverPool, d.attachmentOverlayViewDriverPool,
   d.composeViewDriverPool, d.chatSidebarViewPool,
   d.appToolbarLocationPool, d.searchBarPool, d.nativeDrawerPool]

/-- `InboxDriver.destroy` fires the global stopper: the driver whose
stopper emitted at time `t`, whatever the detector streams do afterwards. -/
def InboxDriver.destroyAt (inp : InboxDriverInputs) (t : Nat) : InboxDriverModel :=
  InboxDriver.build inp (some t)

/-!
The last-interacted-attachment-card slot (C9),
`setLastInteractedAttachmentCardView` in the InboxDriver: a single mutable
slot, plus the identity of the card whose stopper currently has the
`takeUntilBy(this._lastInteractedAttachmentCardViewSet)` subscription
attached (the bus emission on each new call cancels the previous
subscription). Cards are identified by ids; `dispose c` is card c's stopper
firing. The model covers histories in which a card is not set again after
its disposal (a disposed card view cannot be interacted with), checked by
`noSetAfterDispose`.
-/

inductive CardEvent where
  | set (card : Nat)
  | dispose (card : Nat)
deriving DecidableEq, Repr

structure CardSlotState where
  lastInteractedAttachmentCardView : Option Nat
  activeStopperSubscription : Option Nat
deriving DecidableEq, Repr

/-- `setLastInteractedAttachmentCardView(card)`: emit on the bus (ending
the previous card's stopper subscription), store the card, and subscribe
to this card's stopper. -/
def setLastInteractedAttachmentCardView (s : CardSlotState) (card : Nat) :
    CardSlotState :=
  let _ := s
  { lastInteractedAttachmentCardView := some card,
    activeStopperSubscription := some card }

/-- Card `card`'s stopper fires: only the currently subscribed card's
stopper clears the slot; the one-shot subscription then ends. -/
def fireCardStopper (s : CardSlotState) (card : Nat) : CardSlotState :=
  if s.activeStopperSubscription = some card then
    { lastInteractedAttachmentCardView := none, activeStopperSubscription := none }
  else s

def stepCardEvent (s : CardSlotState) : CardEvent → CardSlotState
  | .set c => setLastInteractedAttachmentCardView s c
  | .dispose c => fireCardStopper s c

def runCardEvents (events : List CardEvent) : CardSlotState :=
  events.foldl stepCardEvent ⟨none, none⟩

/-- Well-formedness of a card event history: no card is set again at or
after its disposal. -/
def noSetAfterDispose : List CardEvent → Bool
  | [] => true
  | CardEvent.dispose c :: rest =>
    !(rest.contains (CardEvent.set c)) && noSetAfterDispose rest
  | _ :: rest => noSetAfterDispose rest

/-!
waitFor model (C7), src/src/platform-implementation-js/lib/wait-for.js.
Times are in milliseconds from the `waitFor` call. The timeout `Error` is
created synchronously at call time; `TimeoutError.createdAt = 0` records
that, and the rejected value is that very object. The predicate is indexed
by the poll step; a truthy result is `some v`, a falsy one `none`, and a
thrown exception `Except.error`.
-/

structure TimeoutError where
  createdAt : Nat
deriving DecidableEq, Repr

inductive WaitResult where
  | resolved (value : Nat) (time : Nat)
  | rejectedTimeout (err : TimeoutError) (time : Nat)
  | rejectedCond (e : JsError) (time : Nat)
deriving DecidableEq, Repr

/-- The `step` function of waitFor, fuel-indexed so that it is structurally
recursive: at call `k` (scheduled at time `1 + k * steptime`, with
`waited = k * steptime` accumulated) evaluate the predicate; a truthy
result resolves, an exception rejects, otherwise reject with the call-time
timeout error once `waited >= timeout`, else wait another `steptime`. The
fuel-0 fallback is unreachable for the fuel `waitFor` supplies (shown in
the timeout lemma). -/
def waitForStep (cond : Nat → Except JsError (Option Nat)) (te : TimeoutError)
    (timeout steptime : Nat) : Nat → Nat → Nat → WaitResult
  | 0, _, k => WaitResult.rejectedTimeout te (1 + k * steptime)
  | fuel + 1, waited, k =>
    match cond k with
    | .error e => WaitResult.rejectedCond e (1 + k * steptime)
    | .ok (some v) => WaitResult.resolved v (1 + k * steptime)
    | .ok none =>
      if timeout ≤ waited then WaitResult.rejectedTimeout te (1 + k * steptime)
      else waitForStep cond te timeout steptime fuel (waited + steptime) (k + 1)

/-- `waitFor(condition, timeout, steptime)`: apply the falsy-argument
defaults (120000 / 250), create the timeout error synchronously at call
time 0, and start stepping (first step scheduled after 1 ms). -/
def waitFor (cond : Nat → Except JsError (Option Nat)) (timeout steptime : Nat) :
    WaitResult :=
  let te : TimeoutError := { createdAt := 0 }
  let timeout2 := if timeout = 0 then 120000 else timeout
  let steptime2 := if steptime = 0 then 250 else steptime
  waitForStep cond te timeout2 steptime2 (timeout2 + 1) 0 0

/-!
Concrete wrapper shapes and witness fixtures used by the claim theorems.
-/

/-- A wrapper that is relevant to every connection and whose requestChanger
applies the pure function `f` to the (method, url, body) tuple, returning a
well-formed replacement object. -/
def pureChangerWrapper (f : Request → Request) : Wrapper :=
  { isRelevantTo := fun _ => .ok true,
    requestChanger := some fun _ r =>
      .ok { method? := some (f r).method, url? := some (f r).url,
            body? := some (f r).body } }

/-- A relevant wrapper whose responseTextChanger appends "-modified". -/
def appendModifiedWrapper : Wrapper :=
  { isRelevantTo := fun _ => .ok true,
    responseTextChanger := some fun _ t => .ok (t ++ "-modified") }

/-- A wrapper whose relevance predicate throws. -/
def throwingPredicateWrapper (e : JsError) : Wrapper :=
  { isRelevantTo := fun _ => .error e }

/-- A relevant wrapper all of whose optional callbacks throw. -/
def allThrowingWrapper (e1 e2 e3 e4 e5 e6 : JsError) : Wrapper :=
  { isRelevantTo := fun _ => .ok true,
    originalSendBodyLogger := some fun _ _ => .error e1,
    requestChanger := some fun _ _ => .error e2,
    originalResponseTextLogger := some fun _ _ => .error e3,
    responseTextChanger := some fun _ _ => .error e4,
    finalResponseTextLogger := some fun _ _ => .error e5,
    afterListeners := some fun _ => .error e6 }

/-- A relevant wrapper with only a requestChanger (it therefore triggers
the deferred open/send path and registers no response-rewrite callback). -/
def deferOnlyWrapper (f : Connection → Request → Except JsError MaybeRequest) :
    Wrapper :=
  { isRelevantTo := fun _ => .ok true, requestChanger := some f }

/-- A relevant wrapper with both a (well-formed, identity) requestChanger
and a responseTextChanger that appends "X". -/
def requestAndResponseChangerWrapper : Wrapper :=
  { isRelevantTo := fun _ => .ok true,
    requestChanger := some fun _ r =>
      .ok { method? := some r.method, url? := some r.url, body? := some r.body },
    responseTextChanger := some fun _ t => .ok (t ++ "X") }

/-- A relevant wrapper whose requestChanger returns a replacement object
that is missing the `body` field. -/
def dropBodyChangerWrapper (x y : String) : Wrapper :=
  { isRelevantTo := fun _ => .ok true,
    requestChanger := some fun _ _ =>
      .ok { method? := some x, url? := some y, body? := none } }

/-- A relevant wrapper carrying every response-text callback (and a send
body logger and afterListeners hook), with no requestChanger. -/
def fullCallbackWrapper (sbl : Connection → String → Except JsError Unit)
    (ortl : Connection → String → Except JsError Unit)
    (rtc : Connection → String → Except JsError String)
    (frtl : Connection → String → Except JsError Unit)
    (al : Connection → Except JsError Unit) : Wrapper :=
  { isRelevantTo := fun _ => .ok true,
    originalSendBodyLogger := some sbl,
    originalResponseTextLogger := some ortl,
    responseTextChanger := some rtc,
    finalResponseTextLogger := some frtl,
    afterListeners := some al }

/-- Concrete in-flight state for the C6 witness: a LOADING (readyState 3)
text-mode real request, one active wrapper with a responseTextChanger. -/
def c6WitnessConnection : Connection :=
  { method := "GET", url := "u", params := [], headers := [], async := true }

def c6WitnessState : ProxyState :=
  { wrappers := [appendModifiedWrapper].enum,
    activeWrappers := [appendModifiedWrapper].enum,
    responseTextChangers := [(0, fun _ t => .ok (t ++ "-modified"))],
    connection := some c6WitnessConnection,
    readyState := 2,
    realxhr := { readyState := 3, responseText := "chunk" } }

/-- Concrete in-flight state for the C6 witness, variant with no
responseTextChanger registered. -/
def c6WitnessStateNoChanger : ProxyState :=
  { wrappers := [],
    activeWrappers := [],
    responseTextChangers := [],
    connection := some c6WitnessConnection,
    readyState := 2,
    realxhr := { readyState := 3, responseText := "chunk" } }

/-- The completed-connection scenario of claim C2: an async GET through the
"-modified" response wrapper, completed by the server with status 200 and
body "hello". -/
def c2Scenario (u b : String) : ProxyState :=
  serverRespond
    (XHRProxy.send
      (XHRProxy.openProxy (XHRProxy.new [appendModifiedWrapper]) "GET" u true) b)
    200 "hello" "hello"

/-- Concrete detector streams for the C3 witness: one arrival before the
stopper fires at time 5, one DOM mutation afterwards (time 9). -/
def c3WitnessInputs : InboxDriverInputs :=
  { threadRowEls := [(3, 7), (9, 8)], threadEls := [(3, 7), (9, 8)],
    messageEls := [(3, 7), (9, 8)], threadViews := [(3, 7), (9, 8)],
    messageViews := [(3, 7), (9, 8)], attachmentCardViews := [(3, 7), (9, 8)],
    attachmentOverlayViews := [(3, 7), (9, 8)],
    composeViews := [(3, 7), (9, 8)], chatSidebarViews := [(3, 7), (9, 8)],
    appToolbarLocations := [(3, 7), (9, 8)], searchBars := [(3, 7), (9, 8)],
    nativeDrawers := [(3, 7), (9, 8)] }

/-!
Claim theorems and witnesses.
-/
/-!
Helper lemmas.
-/

/-- Events passed by `takeUntilBy` a stopper that fired at `t0` are
strictly earlier than `t0`. -/
theorem mem_takeUntilBy_lt {src : TStream} {t0 : Nat} {e : Nat × Nat}
    (h : e ∈ takeUntilBy src (some t0)) : e.1 < t0 := by
  simp [takeUntilBy, List.mem_filter] at h
  exact h.2

/-- A theorem for claim C1: for every asynchronous connection with two
relevant requestChanger wrappers, the real open/send are deferred (not
performed at `open()` nor at `send()`), the two changers run in
registration order, the second receiving the first's output, and the real
network call is opened and sent with the second changer's output tuple. -/
theorem c1_request_changer_chain (f g : Request → Request) (m u b : String) :
    let s1 := XHRProxy.openProxy
      (XHRProxy.new [pureChangerWrapper f, pureChangerWrapper g]) m u true
    let s2 := XHRProxy.send s1 b
    let s3 := XHRProxy.resolveDeferredSend s2
    let r0 : Request := { method := m, url := u, body := b }
    s1.realxhr.opened = none ∧ s1.readyState = 1 ∧
    s2.realxhr.opened = none ∧ s2.realxhr.sent = none ∧
    s3.calls = [CallRec.requestChanger 0 r0, CallRec.requestChanger 1 (f r0)] ∧
    s3.realxhr.opened = some ⟨(g (f r0)).method, (g (f r0)).url, true⟩ ∧
    s3.realxhr.sent = some (some (g (f r0)).body) :=
  ⟨rfl, rfl, rfl, rfl, rfl, rfl, rfl⟩
/-- A theorem for claim C2: a completed asynchronous text-mode connection
with a relevant wrapper appending "-modified" to the response text: server
body "hello" yields caller-visible responseText and response
"hello-modified", while the connection's originalResponseText is "hello",
frozen (non-writable, non-reconfigurable), so any later definition attempt
leaves it at "hello". -/
theorem c2_response_changer_and_frozen_original (u b : String) :
    (c2Scenario u b).responseText = "hello-modified" ∧
    XHRProxy.response (c2Scenario u b) = "hello-modified" ∧
    ∃ conn, (c2Scenario u b).connection = some conn ∧
      conn.originalResponseText = some "hello" ∧
      conn.originalResponseTextFrozen = true ∧
      ∀ v, (conn.defineOriginalResponseText v).originalResponseText = some "hello" :=
  ⟨rfl, rfl, _, rfl, rfl, rfl, fun _ => rfl⟩
/-- A theorem for claim C4: wrapper-callback exceptions never escape the
proxy. With a wrapper whose relevance predicate throws `e0` and a relevant
wrapper all of whose callbacks throw `e1 .. e6`, a full
open/send/resolve/complete run still performs the real open and send (with
the original tuple, since the requestChanger chain failed), still reaches
readyState 4 with the full synthesized event sequence, and every thrown
error — the predicate's included — lands in the `logError` sink in order;
the predicate-throwing wrapper is treated as not relevant (only wrapper 1
is active). -/
theorem c4_wrapper_errors_logged_never_propagate
    (e0 e1 e2 e3 e4 e5 e6 : JsError) (m u b : String) :
    let s1 := XHRProxy.openProxy
      (XHRProxy.new [throwingPredicateWrapper e0,
                     allThrowingWrapper e1 e2 e3 e4 e5 e6]) m u true
    let s4 := serverRespond
      (XHRProxy.resolveDeferredSend (XHRProxy.send s1 b)) 200 "resp" "resp"
    s1.activeWrappers.map Prod.fst = [1] ∧
    s4.log = [e0, e1, e2, e3, e4, e5, e6] ∧
    s4.realxhr.opened = some ⟨m, u, true⟩ ∧
    s4.realxhr.sent = some (some b) ∧
    s4.readyState = 4 ∧
    s4.responseText = "resp" ∧
    s4.events = ["readystatechange", "readystatechange", "load", "loadend"] :=
  ⟨rfl, rfl, rfl, rfl, rfl, rfl, rfl⟩

/-- A counterexample for claim C5 as stated: with a relevant wrapper having
both a requestChanger and a responseTextChanger, aborting in the
deferred-send window (client called send, real send not yet started) does
invoke the response-rewrite wrapper — the responseTextChanger runs on the
aborted request's empty response text. -/
theorem c5_counterexample_response_changer_invoked_on_abort :
    let s2 := XHRProxy.send
      (XHRProxy.openProxy (XHRProxy.new [requestAndResponseChangerWrapper])
        "GET" "u" true) "B"
    s2.clientStartedSend = true ∧ s2.realStartedSend = false ∧
    s2.realxhr.sent = none ∧
    CallRec.responseTextChanger 0 "" ∈ (XHRProxy.abort s2).calls := by
  refine ⟨rfl, rfl, rfl, ?_⟩
  decide

/-- A theorem for claim C5 (amended): aborting in the deferred-send window
first performs the real open (with the connection's original method and
url) and the real send, then aborts the real request; the proxy reaches
the terminal readyState 4 with readystatechange/abort/error/loadend events
delivered; and — provided no active wrapper defines a responseTextChanger —
no response-rewrite wrapper is invoked. -/
theorem c5_abort_flushes_deferred_send
    (f : Connection → Request → Except JsError MaybeRequest) (m u b : String) :
    let s2 := XHRProxy.send
      (XHRProxy.openProxy (XHRProxy.new [deferOnlyWrapper f]) m u true) b
    let s3 := XHRProxy.abort s2
    s2.clientStartedSend = true ∧ s2.realStartedSend = false ∧
    s2.realxhr.opened = none ∧ s2.realxhr.sent = none ∧
    s3.realxhr.opened = some ⟨m, u, true⟩ ∧
    s3.realxhr.sent = some none ∧
    s3.realxhr.aborted = true ∧
    s3.readyState = 4 ∧
    s3.events = ["readystatechange", "abort", "readystatechange", "error",
                 "loadend"] ∧
    (∀ i t, CallRec.responseTextChanger i t ∉ s3.calls) := by
  refine ⟨rfl, rfl, rfl, rfl, rfl, rfl, rfl, rfl, rfl, ?_⟩
  intro i t h
  exact absurd (show CallRec.responseTextChanger i t ∈ ([] : List CallRec) from h)
    (List.not_mem_nil _)

/-- A theorem for claim C8: when a requestChanger in the chain returns a
replacement missing the `body` field, the assertion failure is delivered
to the logError sink and the real network call proceeds with the original
(method, url, body) tuple captured at send time — not with the first
changer's intermediate rewrite. -/
theorem c8_malformed_request_changer_falls_back
    (f : Request → Request) (x y m u b : String) :
    let s3 := XHRProxy.resolveDeferredSend
      (XHRProxy.send
        (XHRProxy.openProxy
          (XHRProxy.new [pureChangerWrapper f, dropBodyChangerWrapper x y])
          m u true) b)
    let r0 : Request := { method := m, url := u, body := b }
    s3.calls = [CallRec.requestChanger 0 r0, CallRec.requestChanger 1 (f r0)] ∧
    s3.log = [assertionError "modifiedRequest has body"] ∧
    s3.realxhr.opened = some ⟨m, u, true⟩ ∧
    s3.realxhr.sent = some (some b) :=
  ⟨rfl, rfl, rfl, rfl⟩
/-- A theorem for claim C3: after the Driver's stopper has fired at time
`t` (destroy), no pool the InboxDriver constructed emits any further value
on its `items()` sequence — every event any pool delivers is strictly
earlier than `t`, whatever the detector streams (DOM mutations) contain
afterwards, because every pool input is wired with takeUntilBy(stopper). -/
theorem c3_destroy_stops_all_pools (inp : InboxDriverInputs) (t : Nat)
    (p : ItemWithLifetimePool) (e : Nat × Nat)
    (hp : p ∈ (InboxDriver.destroyAt inp t).pools)
    (he : e ∈ p.items) : e.1 < t := by
  simp only [InboxDriver.destroyAt, InboxDriver.build, InboxDriverModel.pools,
    List.mem_cons, List.mem_singleton, List.not_mem_nil, or_false] at hp
  rcases hp with h|h|h|h|h|h|h|h|h|h|h|h <;>
    (subst h; exact mem_takeUntilBy_lt he)

/-- Witness for C3 at a concrete input: with every detector stream holding
an arrival at time 3 and a post-destroy mutation at time 9, and the stopper
fired at time 5, the thread-row pool's items all precede time 5. -/
theorem c3_destroy_stops_all_pools_witness :
    ((InboxDriver.destroyAt c3WitnessInputs 5).threadRowElPool ∈
      (InboxDriver.destroyAt c3WitnessInputs 5).pools) ∧
    ((3, 7) ∈ (InboxDriver.destroyAt c3WitnessInputs 5).threadRowElPool.items) ∧
    (3, 7).1 < 5 :=
  ⟨by decide, by decide,
   c3_destroy_stops_all_pools c3WitnessInputs 5
     (InboxDriver.destroyAt c3WitnessInputs 5).threadRowElPool (3, 7)
     (by decide) (by decide)⟩
/-- A theorem for claim C6: on a LOADING (readyState 3) text-mode real
request, when at least one active wrapper has a responseTextChanger the
proxy exposes the empty string instead of the partial untransformed body;
with no responseTextChanger among the active wrappers, the proxy mirrors
the real request's partial responseText. The `hlink` hypothesis is the
invariant established at `open()`: `_responseTextChangers` is exactly the
changers collected from the active wrappers. -/
theorem c6_partial_response_suppressed (s : ProxyState) (conn : Connection)
    (hc : s.connection = some conn)
    (hrs : s.realxhr.readyState = 3)
    (htext : s.realxhr.supportsText = true)
    (hlink : s.responseTextChangers =
      s.activeWrappers.filterMap fun iw =>
        (iw.2.responseTextChanger).map fun f => (iw.1, f)) :
    ((∃ iw ∈ s.activeWrappers, (iw.2.responseTextChanger).isSome) →
       (XHRProxy.handleRealRsc s).responseText = "") ∧
    ((∀ iw ∈ s.activeWrappers, iw.2.responseTextChanger = none) →
       (XHRProxy.handleRealRsc s).responseText = s.realxhr.responseText) := by
  constructor
  · rintro ⟨iw, hmem, hsome⟩
    obtain ⟨f, hf⟩ := Option.isSome_iff_exists.mp hsome
    have hne : s.responseTextChangers ≠ [] := by
      rw [hlink]
      intro hnil
      have hmm : (iw.1, f) ∈
          s.activeWrappers.filterMap fun iw =>
            (iw.2.responseTextChanger).map fun f => (iw.1, f) :=
        List.mem_filterMap.mpr ⟨iw, hmem, by rw [hf]; rfl⟩
      rw [hnil] at hmm
      exact List.not_mem_nil _ hmm
    simp [XHRProxy.handleRealRsc, hc, hrs, htext,
      List.isEmpty_iff, hne]
  · intro hall
    have hnil : s.responseTextChangers = [] := by
      rw [hlink]
      apply List.filterMap_eq_nil_iff.mpr
      intro a ha
      rw [hall a ha]
      rfl
    simp [XHRProxy.handleRealRsc, hc, hrs, htext, hnil]
/-- Witness for C6 at concrete in-flight states: with an active
"-modified" wrapper the LOADING-state responseText is suppressed to "";
with no changer it mirrors the real partial text "chunk". -/
theorem c6_partial_response_suppressed_witness :
    (XHRProxy.handleRealRsc c6WitnessState).responseText = "" ∧
    (XHRProxy.handleRealRsc c6WitnessStateNoChanger).responseText = "chunk" := by
  constructor
  · exact (c6_partial_response_suppressed c6WitnessState c6WitnessConnection
      rfl rfl rfl rfl).1 ⟨(0, appendModifiedWrapper), List.Mem.head _, rfl⟩
  · exact (c6_partial_response_suppressed c6WitnessStateNoChanger
      c6WitnessConnection rfl rfl rfl rfl).2
      (fun iw hiw => absurd hiw (List.not_mem_nil _))
/-- With a predicate that always polls falsy, `waitForStep` rejects with
the call-time timeout error at time `1 + w` for the first accumulated wait
`w ≥ timeout`, provided the fuel covers the remaining wait. -/
theorem waitForStep_never_truthy (cond : Nat → Except JsError (Option Nat))
    (te : TimeoutError) (timeout steptime : Nat)
    (hc : ∀ j, cond j = .ok none) :
    ∀ fuel waited k, waited = k * steptime → timeout ≤ waited + fuel * steptime →
    ∃ w, waitForStep cond te timeout steptime (fuel + 1) waited k =
          .rejectedTimeout te (1 + w) ∧ timeout ≤ w ∧
          (timeout ≤ waited → w = waited) ∧
          (waited < timeout → w < timeout + steptime) := by
  have unf : ∀ fl w2 k2, waitForStep cond te timeout steptime (fl + 1) w2 k2 =
      if timeout ≤ w2 then WaitResult.rejectedTimeout te (1 + k2 * steptime)
      else waitForStep cond te timeout steptime fl (w2 + steptime) (k2 + 1) := by
    intro fl w2 k2
    simp [waitForStep, hc]
  intro fuel
  induction fuel with
  | zero =>
    intro waited k hw hle
    have hto : timeout ≤ waited := by simpa using hle
    refine ⟨waited, ?_, hto, fun _ => rfl,
      fun hlt => absurd hto (Nat.not_le.mpr hlt)⟩
    rw [unf, if_pos hto, hw]
  | succ n ih =>
    intro waited k hw hle
    by_cases hto : timeout ≤ waited
    · refine ⟨waited, ?_, hto, fun _ => rfl,
        fun hlt => absurd hto (Nat.not_le.mpr hlt)⟩
      rw [unf, if_pos hto, hw]
    · have hlt : waited < timeout := Nat.not_le.mp hto
      obtain ⟨w, heq, h1, h2, h3⟩ := ih (waited + steptime) (k + 1)
        (by rw [hw, Nat.succ_mul]) (by rw [Nat.succ_mul] at hle; omega)
      refine ⟨w, ?_, h1, fun h => absurd h hto, fun _ => ?_⟩
      · rw [unf, if_neg hto]
        exact heq
      · by_cases h4 : waited + steptime < timeout
        · exact h3 h4
        · have h5 : timeout ≤ waited + steptime := Nat.not_lt.mp h4
          exact h2 h5 ▸ Nat.add_lt_add_right hlt steptime

/-- A theorem for claim C7: with a predicate that never returns truthy and
never throws, and positive timeout and steptime, `waitFor` rejects with
exactly the timeout error created synchronously at call time (creation
time 0), at a time `t` with `timeout < t ≤ timeout + steptime` — i.e. at
the first poll whose accumulated waited time reaches the timeout. -/
theorem c7_waitFor_timeout (cond : Nat → Except JsError (Option Nat))
    (timeout steptime : Nat) (hc : ∀ j, cond j = .ok none)
    (ht : 0 < timeout) (hst : 0 < steptime) :
    ∃ t, waitFor cond timeout steptime =
          .rejectedTimeout { createdAt := 0 } t ∧
         timeout < t ∧ t ≤ timeout + steptime := by
  have hto : (if timeout = 0 then 120000 else timeout) = timeout := by
    simp [Nat.pos_iff_ne_zero.mp ht]
  have hso : (if steptime = 0 then 250 else steptime) = steptime := by
    simp [Nat.pos_iff_ne_zero.mp hst]
  obtain ⟨w, heq, h1, _, h3⟩ := waitForStep_never_truthy cond { createdAt := 0 }
    timeout steptime hc timeout 0 0 (Nat.zero_mul steptime).symm
    (by
      have : timeout ≤ timeout * steptime :=
        Nat.le_mul_of_pos_right timeout hst
      omega)
  have hrw : waitFor cond timeout steptime =
      waitForStep cond { createdAt := 0 } timeout steptime (timeout + 1) 0 0 := by
    show waitForStep cond { createdAt := 0 }
        (if timeout = 0 then 120000 else timeout)
        (if steptime = 0 then 250 else steptime)
        ((if timeout = 0 then 120000 else timeout) + 1) 0 0 = _
    rw [hto, hso]
  refine ⟨1 + w, ?_, by omega, by have := h3 ht; omega⟩
  rw [hrw]
  exact heq

/-- Witness for C7 at the spec's concrete input: `waitFor` over an
always-false predicate with timeout 500 and steptime 100 rejects with the
call-time timeout error between 400 ms and 700 ms. -/
theorem c7_waitFor_timeout_witness :
    ∃ t, waitFor (fun _ => .ok none) 500 100 =
          .rejectedTimeout { createdAt := 0 } t ∧ 400 ≤ t ∧ t ≤ 700 := by
  obtain ⟨t, heq, h1, h2⟩ :=
    c7_waitFor_timeout (fun _ => .ok none) 500 100 (fun _ => rfl)
      (by decide) (by decide)
  exact ⟨t, heq, by omega, by omega⟩
/-- Invariant of the card-slot state machine: the card whose stopper
subscription is active is always exactly the card held in the slot. -/
theorem cardSlot_subscription_eq_slot (es : List CardEvent) :
    (runCardEvents es).activeStopperSubscription =
      (runCardEvents es).lastInteractedAttachmentCardView := by
  suffices h : ∀ s : CardSlotState,
      s.activeStopperSubscription = s.lastInteractedAttachmentCardView →
      (es.foldl stepCardEvent s).activeStopperSubscription =
        (es.foldl stepCardEvent s).lastInteractedAttachmentCardView from
    h ⟨none, none⟩ rfl
  induction es with
  | nil => intro s hs; exact hs
  | cons e rest ih =>
    intro s hs
    apply ih
    cases e with
    | set c => rfl
    | dispose c =>
      simp only [stepCardEvent, fireCardStopper]
      split
      · rfl
      · exact hs

/-- A theorem for claim C9: the last-interacted-attachment-card slot holds
at most one card (it is a single `Option`), and after any well-formed
interaction history, the disposal of card `c` clears the slot exactly when
`c` is the card currently held — a superseded card's later disposal leaves
the newer card's reference intact, because its stopper subscription was
cancelled when the newer card was set. -/
theorem c9_card_slot_disposal (es : List CardEvent) (c c2 : Nat)
    (_hwf : noSetAfterDispose (es ++ [CardEvent.dispose c]) = true)
    (hslot : (runCardEvents es).lastInteractedAttachmentCardView = some c2) :
    (runCardEvents (es ++ [CardEvent.dispose c])).lastInteractedAttachmentCardView
      = if c = c2 then none else some c2 := by
  have happ : runCardEvents (es ++ [CardEvent.dispose c]) =
      stepCardEvent (runCardEvents es) (CardEvent.dispose c) := by
    simp [runCardEvents, List.foldl_append]
  have hsub := cardSlot_subscription_eq_slot es
  rw [happ]
  simp only [stepCardEvent, fireCardStopper, hsub, hslot]
  by_cases h : c = c2
  · subst h
    simp
  · rw [if_neg (by simpa using (Ne.symm h)), if_neg h]
    exact hslot

/-- Witness for C9 at a concrete history: after setting card 1 then
card 2, disposing the superseded card 1 leaves the slot holding card 2. -/
theorem c9_card_slot_disposal_witness :
    noSetAfterDispose ([CardEvent.set 1, CardEvent.set 2] ++
      [CardEvent.dispose 1]) = true ∧
    (runCardEvents ([CardEvent.set 1, CardEvent.set 2] ++
      [CardEvent.dispose 1])).lastInteractedAttachmentCardView = some 2 := by
  refine ⟨by decide, ?_⟩
  have h := c9_card_slot_disposal [CardEvent.set 1, CardEvent.set 2] 1 2
    (by decide) (by decide)
  simpa using h
/-- A theorem for claim C10: on a connection whose responseType is neither
the empty string nor "text", even with a relevant wrapper carrying every
response-text callback, none of originalResponseTextLogger,
responseTextChanger or finalResponseTextLogger is invoked (only the send
body logger and afterListeners run), the connection's originalResponseText
is never set, the proxy's responseText is the empty string at completion,
and the proxy's `response` returns the real request's response unmodified. -/
theorem c10_non_text_mode_passthrough
    (sbl ortl frtl : Connection → String → Except JsError Unit)
    (rtc : Connection → String → Except JsError String)
    (al : Connection → Except JsError Unit)
    (rt m u b raw : String) (status : Nat)
    (h1 : rt ≠ "") (h2 : rt ≠ "text") :
    let s1 := XHRProxy.openProxy
      (XHRProxy.new [fullCallbackWrapper sbl ortl rtc frtl al]) m u true
    let s3 := serverRespond (XHRProxy.send (setResponseType s1 rt) b) status "" raw
    s3.calls = [CallRec.originalSendBodyLogger 0 b, CallRec.afterListeners 0] ∧
    s3.connection.map Connection.originalResponseText = some none ∧
    s3.responseText = "" ∧
    XHRProxy.response s3 = raw ∧
    s3.readyState = 4 := by
  intro s1 s3
  have hsup : ∀ rx : RealXHR, rx.responseType = rt → rx.supportsText = false := by
    intro rx hx
    simp [RealXHR.supportsText, hx, h1, h2]
  refine ⟨?_, ?_, ?_, ?_, ?_⟩ <;>
    simp [s3, s1, serverRespond, setResponseType, XHRProxy.send,
      XHRProxy.openProxy, XHRProxy.new, XHRProxy.finishOpen, XHRProxy.finishSend,
      XHRProxy.handleRealRsc, deliverFinalRsc, XHRProxy.response,
      fullCallbackWrapper, findApplicableWrappers, relevancePredicateErrors,
      loggerCalls, loggerErrors, afterListenerCalls, afterListenerErrors,
      RealXHR.openReal, RealXHR.sendReal, RealXHR.supportsText, h1, h2,
      List.enum, deparam, queryOf]
/-- Witness for C10 at a concrete input: a "json"-responseType connection
through a wrapper with all response-text callbacks still delivers the real
response "raw" unmodified. -/
theorem c10_non_text_mode_passthrough_witness :
    ("json" : String) ≠ "" ∧ ("json" : String) ≠ "text" ∧
    XHRProxy.response
      (serverRespond
        (XHRProxy.send
          (setResponseType
            (XHRProxy.openProxy
              (XHRProxy.new [fullCallbackWrapper (fun _ _ => .ok ())
                (fun _ _ => .ok ()) (fun _ t => .ok t) (fun _ _ => .ok ())
                (fun _ => .ok ())]) "GET" "u" true) "json") "b") 200 "" "raw")
      = "raw" :=
  ⟨by decide, by decide,
   (c10_non_text_mode_passthrough (fun _ _ => .ok ()) (fun _ _ => .ok ())
     (fun _ _ => .ok ()) (fun _ t => .ok t) (fun _ => .ok ())
     "json" "GET" "u" "b" "raw" 200 (by decide) (by decide)).2.2.2.1⟩
